import Mathlib

/-!
Shallow embedding of the capture/infer/speak pipeline of the vision-aid
repository (src/project-v2/src/App.tsx, with the plain-HTML variant in
src/index.html as a secondary source).  Network effects are modelled by
passing the outcome of each outbound HTTP call as an explicit argument;
each operation returns, besides its result, the list of requests it
issued and the sequence of processing-state assignments it performed.
-/

namespace VisionAid

/-- Session settings: the CaptureSettings interface (App.tsx lines 5-11). -/
structure CaptureSettings where
  serverUrl : String
  instruction : String
  ttsServerUrl : String
  enableTTS : Bool
  ttsLanguage : String
  deriving Repr, DecidableEq

/-- The ProcessingState union type (App.tsx line 13):
idle | loading | enhancing | generating-speech | success | error. -/
inductive ProcessingState where
  | idle
  | loading
  | enhancing
  | generatingSpeech
  | success
  | error
  deriving Repr, DecidableEq, BEq

/-- The React component state that the pipeline reads and writes
(App.tsx lines 22-37): processing state, inference results, error
message, audio payload, playing flag and preview image. -/
structure AppState where
  processingState : ProcessingState
  originalResult : String
  enhancedResult : String
  error : String
  audioBase64 : String
  isPlaying : Bool
  previewImage : Option String
  deriving Repr, DecidableEq

/-- The initial component state (the useState initialisers, App.tsx
lines 22-37). -/
def initialAppState : AppState :=
  { processingState := .idle
    originalResult := ""
    enhancedResult := ""
    error := ""
    audioBase64 := ""
    isPlaying := false
    previewImage := none }

/-- JS `Response.ok`: true exactly when the HTTP status is in 200-299. -/
def responseOk (status : Nat) : Bool :=
  200 ≤ status && status < 300

/-- One element of the `content` array of a chat message: either an
image_url part or a text part (App.tsx lines 96-107). -/
inductive ContentPart where
  | image_url (url : String)
  | text (t : String)
  deriving Repr, DecidableEq

/-- A chat message of the inference request body (App.tsx lines 93-109). -/
structure ChatMessage where
  role : String
  content : List ContentPart
  deriving Repr, DecidableEq

/-- The observable content of the POST issued by sendToAI: target URL and
the JSON body fields (App.tsx lines 85-111). -/
structure ChatRequest where
  url : String
  max_tokens : Nat
  temperature : Nat
  messages : List ChatMessage
  deriving Repr, DecidableEq

/-- The HTTP response of the inference endpoint, as far as sendToAI observes
it: the status, the body as text (read on the non-ok path), and the
parsed choices.  `choices = Except.ok cs` means the body parsed as JSON
and each choice had a `message.content` string, collected in `cs`;
`choices = Except.error m` means `response.json()` or the field accesses
threw an Error whose message is `m`. -/
structure ChatHttpResponse where
  status : Nat
  bodyText : String
  choices : Except String (List String)
  deriving Repr

/-- Outcome of the fetch performed by sendToAI: either the fetch promise
itself rejects (network failure, message `msg`), or a response arrives. -/
inductive ChatOutcome where
  | netFail (msg : String)
  | got (r : ChatHttpResponse)
  deriving Repr

/-- Message of the TypeError thrown by `data.choices[0].message` when the
choices array is empty (engine-specific text; the V8 wording is used). -/
def emptyChoicesMsg : String :=
  "Cannot read properties of undefined (reading message)"

/-- The request body sendToAI builds (App.tsx lines 85-111): POST to
`{serverUrl}/v1/chat/completions` with max_tokens 128, temperature 0 and
a single user message holding an image_url part and a text part. -/
def buildChatRequest (s : CaptureSettings) (imageBase64 : String) : ChatRequest :=
  { url := s.serverUrl ++ "/v1/chat/completions"
    max_tokens := 128
    temperature := 0
    messages := [{ role := "user"
                   content := [.image_url imageBase64, .text s.instruction] }] }

/-- The fixed prefix of the error message thrown on a non-ok inference
response (App.tsx line 115): `Server error: {status} - `. -/
def serverErrorPrefix (status : Nat) : String :=
  "Server error: " ++ toString status ++ " - "

/-- sendToAI (App.tsx lines 83-123): issues the chat request exactly
once; a non-ok response throws `Server error: {status} - {bodyText}`; on
an ok response the result is `data.choices[0].message.content`.  Every
thrown Error is re-thrown with the same message by the catch block (line
121).  Returns the requests issued and the result or thrown message. -/
def sendToAI (s : CaptureSettings) (imageBase64 : String) (o : ChatOutcome) :
    List ChatRequest × Except String String :=
  ([buildChatRequest s imageBase64],
    match o with
    | .netFail msg => .error msg
    | .got r =>
      if responseOk r.status then
        match r.choices with
        | .ok (c :: _) => .ok c
        | .ok [] => .error emptyChoicesMsg
        | .error msg => .error msg
      else
        .error (serverErrorPrefix r.status ++ r.bodyText))

/-- The observable content of the POST issued by generateSpeech
(App.tsx lines 131-140): target URL and the JSON body fields. -/
structure TtsRequest where
  url : String
  text : String
  language : String
  deriving Repr, DecidableEq

/-- The parsed JSON body of a TTS response, as far as generateSpeech
reads it: `success`, `audio_base64` (empty string models an absent or
empty, i.e. falsy, field) and `error` (likewise). -/
structure TtsBody where
  success : Bool
  audio_base64 : String
  error : String
  deriving Repr, DecidableEq

/-- The HTTP response of the speech endpoint: status, body text (read on the
non-ok path) and the parse result of `response.json()`. -/
structure TtsHttpResponse where
  status : Nat
  bodyText : String
  body : Except String TtsBody
  deriving Repr

/-- Outcome of the fetch performed by generateSpeech. -/
inductive TtsOutcome where
  | netFail (msg : String)
  | got (r : TtsHttpResponse)
  deriving Repr

/-- generateSpeech (App.tsx lines 125-159): returns null at once when the
TTS flag is off or the trimmed text is empty (no request issued);
otherwise POSTs `{text, language}` to `{ttsServerUrl}/tts` and yields the
audio only when the response is ok, parses, and has a truthy `success`
and `audio_base64`; every failure path is caught and yields null. -/
def generateSpeech (s : CaptureSettings) (text : String) (o : TtsOutcome) :
    List TtsRequest × Option String :=
  if !s.enableTTS || text.trim == "" then
    ([], none)
  else
    let req : TtsRequest :=
      { url := s.ttsServerUrl ++ "/tts", text := text, language := s.ttsLanguage }
    ([req],
      match o with
      | .netFail _ => none
      | .got r =>
        if responseOk r.status then
          match r.body with
          | .ok b => if b.success && b.audio_base64 != "" then some b.audio_base64 else none
          | .error _ => none
        else none)

/-- The video element as captureImage observes it: its natural
dimensions and the pixel data of the current frame (abstract). -/
structure VideoSource where
  videoWidth : Nat
  videoHeight : Nat
  frameData : String
  deriving Repr, DecidableEq

/-- captureImage (App.tsx lines 65-81): returns null when the video or
canvas ref is null, the video has no natural width (not ready), or the 2d
context is unavailable; otherwise draws the frame and encodes it with
`canvas.toDataURL` with type image/jpeg and quality 0.8, modelled by the abstract encoder
`encode` applied to the frame data. -/
def captureImage (encode : String → String) (video : Option VideoSource)
    (canvasPresent ctxAvailable : Bool) : Option String :=
  match video with
  | none => none
  | some v =>
    if !canvasPresent then none
    else if v.videoWidth == 0 then none
    else if !ctxAvailable then none
    else some (encode v.frameData)

/-- Observable outcome of one pipeline run: the final component state,
the processing-state values assigned in order, and the HTTP requests
issued to each endpoint. -/
structure RunResult where
  finalState : AppState
  stateTrace : List ProcessingState
  chatRequests : List ChatRequest
  ttsRequests : List TtsRequest
  deriving Repr, DecidableEq

/-- The state-update block run by handleCapture on entry to loading
(App.tsx lines 181-187): record the captured image as preview, move to
loading, and clear error, both results, audio and the playing flag. -/
def enterLoading (st : AppState) (imageBase64 : String) : AppState :=
  { st with previewImage := some imageBase64
            processingState := .loading
            error := ""
            originalResult := ""
            enhancedResult := ""
            audioBase64 := ""
            isPlaying := false }

/-- The state-update block run by handleUploadImage on entry to loading
(App.tsx lines 221-227), transcribed from its own lines. -/
def enterLoadingUpload (st : AppState) (imageBase64 : String) : AppState :=
  { st with previewImage := some imageBase64
            processingState := .loading
            error := ""
            originalResult := ""
            enhancedResult := ""
            audioBase64 := ""
            isPlaying := false }

/-- The processing handleCapture performs on an acquired image (App.tsx lines
181-208): enter loading, await sendToAI; on failure set the thrown
message as error and move to error; on success record the result, run
generateSpeech under generating-speech when the TTS flag is on (setting
the audio only when some was produced), and finish in success. -/
def processCapturedImage (s : CaptureSettings) (st : AppState) (imageBase64 : String)
    (chatO : ChatOutcome) (ttsO : TtsOutcome) : RunResult :=
  let st1 := enterLoading st imageBase64
  let sent := sendToAI s imageBase64 chatO
  match sent.2 with
  | .error msg =>
    { finalState := { st1 with error := msg, processingState := .error }
      stateTrace := [.loading, .error]
      chatRequests := sent.1
      ttsRequests := [] }
  | .ok aiResult =>
    let st2 := { st1 with originalResult := aiResult, enhancedResult := aiResult }
    if s.enableTTS then
      let st3 := { st2 with processingState := .generatingSpeech }
      let speech := generateSpeech s aiResult ttsO
      let st4 :=
        match speech.2 with
        | some audioData => { st3 with audioBase64 := audioData }
        | none => st3
      { finalState := { st4 with processingState := .success }
        stateTrace := [.loading, .generatingSpeech, .success]
        chatRequests := sent.1
        ttsRequests := speech.1 }
    else
      { finalState := { st2 with processingState := .success }
        stateTrace := [.loading, .success]
        chatRequests := sent.1
        ttsRequests := [] }

/-- The processing handleUploadImage performs on a read image (App.tsx lines
221-248), transcribed from its own lines: enter loading, await sendToAI;
on failure set the thrown message as error and move to error; on success
record the result, run generateSpeech under generating-speech when the
TTS flag is on, and finish in success. -/
def processUploadedImage (s : CaptureSettings) (st : AppState) (imageBase64 : String)
    (chatO : ChatOutcome) (ttsO : TtsOutcome) : RunResult :=
  let st1 := enterLoadingUpload st imageBase64
  let sent := sendToAI s imageBase64 chatO
  match sent.2 with
  | .error msg =>
    { finalState := { st1 with error := msg, processingState := .error }
      stateTrace := [.loading, .error]
      chatRequests := sent.1
      ttsRequests := [] }
  | .ok aiResult =>
    let st2 := { st1 with originalResult := aiResult, enhancedResult := aiResult }
    if s.enableTTS then
      let st3 := { st2 with processingState := .generatingSpeech }
      let speech := generateSpeech s aiResult ttsO
      let st4 :=
        match speech.2 with
        | some audioData => { st3 with audioBase64 := audioData }
        | none => st3
      { finalState := { st4 with processingState := .success }
        stateTrace := [.loading, .generatingSpeech, .success]
        chatRequests := sent.1
        ttsRequests := speech.1 }
    else
      { finalState := { st2 with processingState := .success }
        stateTrace := [.loading, .success]
        chatRequests := sent.1
        ttsRequests := [] }

/-- The capture-failure error message (App.tsx line 178). -/
def captureFailMsg : String :=
  "Không thể chụp ảnh. Vui lòng thử lại."

/-- The file-read-failure error message (App.tsx line 218). -/
def readFailMsg : String :=
  "Không thể đọc file ảnh."

/-- handleCapture (App.tsx lines 175-209): capture a frame; a null or
empty (falsy) result sets the capture error and returns without touching
the processing state or issuing any request; otherwise process the
captured image. -/
def handleCapture (s : CaptureSettings) (st : AppState) (encode : String → String)
    (video : Option VideoSource) (canvasPresent ctxAvailable : Bool)
    (chatO : ChatOutcome) (ttsO : TtsOutcome) : RunResult :=
  match captureImage encode video canvasPresent ctxAvailable with
  | none =>
    { finalState := { st with error := captureFailMsg }
      stateTrace := []
      chatRequests := []
      ttsRequests := [] }
  | some imageBase64 =>
    if imageBase64 == "" then
      { finalState := { st with error := captureFailMsg }
        stateTrace := []
        chatRequests := []
        ttsRequests := [] }
    else
      processCapturedImage s st imageBase64 chatO ttsO

/-- handleUploadImage (App.tsx lines 211-251): with no file selected,
return silently; a null or empty (falsy) FileReader result sets the read
error and returns; otherwise process the read image. -/
def handleUploadImage (s : CaptureSettings) (st : AppState)
    (filePresent : Bool) (readResult : Option String)
    (chatO : ChatOutcome) (ttsO : TtsOutcome) : RunResult :=
  if !filePresent then
    { finalState := st, stateTrace := [], chatRequests := [], ttsRequests := [] }
  else
    match readResult with
    | none =>
      { finalState := { st with error := readFailMsg }
        stateTrace := []
        chatRequests := []
        ttsRequests := [] }
    | some imageBase64 =>
      if imageBase64 == "" then
        { finalState := { st with error := readFailMsg }
          stateTrace := []
          chatRequests := []
          ttsRequests := [] }
      else
        processUploadedImage s st imageBase64 chatO ttsO

/-- The disabled condition of the capture button (App.tsx line 437). -/
def captureButtonDisabled (p : ProcessingState) : Bool :=
  p == .loading || p == .enhancing || p == .generatingSpeech

/-- The disabled condition of the upload button: the "Tải ảnh lên" buttons
(App.tsx lines 418-424 and 470-476) carry no disabled attribute, so the
control is enabled in every processing state. -/
def uploadButtonDisabled (_p : ProcessingState) : Bool :=
  false

/-- Whether some control that starts a capture/infer/speak pipeline run
(the capture button or the upload button) is enabled in state `p`. -/
def pipelineStartEnabled (p : ProcessingState) : Bool :=
  !captureButtonDisabled p || !uploadButtonDisabled p

/-- The camera-holding part of the component state: the track identifiers
of the held MediaStream (none when no stream is held) and the
isCameraActive flag (App.tsx lines 20-21). -/
structure CameraState where
  streamTracks : Option (List Nat)
  isCameraActive : Bool
  deriving Repr, DecidableEq

/-- stopCamera (App.tsx lines 57-63): when a stream is held, call
`track.stop()` on each of its tracks and drop the stream; in any case
clear the active flag.  Returns the new state and the list of tracks on
which stop was called. -/
def stopCamera (c : CameraState) : CameraState × List Nat :=
  match c.streamTracks with
  | some ts => ({ streamTracks := none, isCameraActive := false }, ts)
  | none => ({ c with isCameraActive := false }, [])

/-- Processing-state values reachable in the component: the initial state
is idle (App.tsx line 22), and the only writers of processingState are
handleCapture and handleUploadImage, so every later value appears in the
state trace of some run started from a reachable state.  (initCamera,
stopCamera and the audio handlers never assign processingState.) -/
inductive ReachableProc : ProcessingState → Prop where
  | init : ReachableProc .idle
  | ofCapture (s : CaptureSettings) (st : AppState) (encode : String → String)
      (video : Option VideoSource) (canvasPresent ctxAvailable : Bool)
      (chatO : ChatOutcome) (ttsO : TtsOutcome) (q : ProcessingState) :
      ReachableProc st.processingState →
      q ∈ (handleCapture s st encode video canvasPresent ctxAvailable chatO ttsO).stateTrace →
      ReachableProc q
  | ofUpload (s : CaptureSettings) (st : AppState)
      (filePresent : Bool) (readResult : Option String)
      (chatO : ChatOutcome) (ttsO : TtsOutcome) (q : ProcessingState) :
      ReachableProc st.processingState →
      q ∈ (handleUploadImage s st filePresent readResult chatO ttsO).stateTrace →
      ReachableProc q

/-- A failing speech call, as the spec enumerates the cases: a network
failure, a non-2xx response, a malformed response body, or a response
whose body has success false. -/
def SpeechFailure : TtsOutcome → Prop
  | .netFail _ => True
  | .got r =>
    responseOk r.status = false ∨ (∃ m, r.body = .error m) ∨
      (∃ b, r.body = .ok b ∧ b.success = false)

/-! Sample inputs used by the witness theorems -/

/-- Concrete settings (the defaults of App.tsx lines 28-34, with a short
instruction) used by the witnesses. -/
def sampleSettings : CaptureSettings :=
  { serverUrl := "http://localhost:8080"
    instruction := "describe the scene"
    ttsServerUrl := "http://localhost:5000"
    enableTTS := true
    ttsLanguage := "vi" }

/-- Concrete settings with the TTS feature flag off. -/
def sampleSettingsNoTts : CaptureSettings :=
  { sampleSettings with enableTTS := false }

/-! Helper lemmas -/

/-- handleCapture and handleUploadImage process an acquired image
identically: the two duplicated blocks (App.tsx lines 181-208 and
221-248) denote the same function. -/
theorem processUploaded_eq_processCaptured (s : CaptureSettings) (st : AppState)
    (imageBase64 : String) (chatO : ChatOutcome) (ttsO : TtsOutcome) :
    processUploadedImage s st imageBase64 chatO ttsO =
      processCapturedImage s st imageBase64 chatO ttsO :=
  rfl

/-- A failing speech call yields no audio: every failure branch of
generateSpeech is caught and returns null. -/
theorem generateSpeech_failure_none (s : CaptureSettings) (text : String)
    (o : TtsOutcome) (hf : SpeechFailure o) :
    (generateSpeech s text o).2 = none := by
  unfold generateSpeech
  split
  · rfl
  · cases o with
    | netFail m => rfl
    | got r =>
      rcases hf with h | ⟨m, hm⟩ | ⟨b, hb, hs⟩
      · simp [h]
      · by_cases hr : responseOk r.status <;> simp [hr, hm]
      · by_cases hr : responseOk r.status <;> simp [hr, hb, hs]

/-- Every processing state assigned by processCapturedImage is loading,
generating-speech, success or error. -/
theorem stateTrace_mem_process (s : CaptureSettings) (st : AppState)
    (imageBase64 : String) (chatO : ChatOutcome) (ttsO : TtsOutcome)
    (q : ProcessingState)
    (hq : q ∈ (processCapturedImage s st imageBase64 chatO ttsO).stateTrace) :
    q = .loading ∨ q = .generatingSpeech ∨ q = .success ∨ q = .error := by
  unfold processCapturedImage at hq
  cases h : (sendToAI s imageBase64 chatO).2 with
  | error msg =>
    simp [h] at hq
    tauto
  | ok aiResult =>
    by_cases hE : s.enableTTS <;> simp [h, hE] at hq <;> tauto

/-- Every processing state assigned by handleCapture is loading,
generating-speech, success or error. -/
theorem stateTrace_mem_capture (s : CaptureSettings) (st : AppState)
    (encode : String → String) (video : Option VideoSource)
    (canvasPresent ctxAvailable : Bool) (chatO : ChatOutcome) (ttsO : TtsOutcome)
    (q : ProcessingState)
    (hq : q ∈ (handleCapture s st encode video canvasPresent ctxAvailable chatO ttsO).stateTrace) :
    q = .loading ∨ q = .generatingSpeech ∨ q = .success ∨ q = .error := by
  unfold handleCapture at hq
  cases hc : captureImage encode video canvasPresent ctxAvailable with
  | none => simp [hc] at hq
  | some imageBase64 =>
    rw [hc] at hq
    by_cases he : imageBase64 == "" <;> simp [he] at hq
    exact stateTrace_mem_process s st imageBase64 chatO ttsO q hq

/-- Every processing state assigned by handleUploadImage is loading,
generating-speech, success or error. -/
theorem stateTrace_mem_upload (s : CaptureSettings) (st : AppState)
    (filePresent : Bool) (readResult : Option String)
    (chatO : ChatOutcome) (ttsO : TtsOutcome) (q : ProcessingState)
    (hq : q ∈ (handleUploadImage s st filePresent readResult chatO ttsO).stateTrace) :
    q = .loading ∨ q = .generatingSpeech ∨ q = .success ∨ q = .error := by
  unfold handleUploadImage at hq
  cases filePresent with
  | false => simp at hq
  | true =>
    cases readResult with
    | none => simp at hq
    | some imageBase64 =>
      by_cases he : imageBase64 == "" <;> simp [he] at hq
      rw [processUploaded_eq_processCaptured] at hq
      exact stateTrace_mem_process s st imageBase64 chatO ttsO q hq

/-- Every reachable processing state is idle, loading, generating-speech,
success or error. -/
theorem reachableProc_cases (p : ProcessingState) (h : ReachableProc p) :
    p = .idle ∨ p = .loading ∨ p = .generatingSpeech ∨ p = .success ∨ p = .error := by
  induction h with
  | init => exact Or.inl rfl
  | ofCapture s st encode video canvasPresent ctxAvailable chatO ttsO q hr hq ih =>
    have := stateTrace_mem_capture s st encode video canvasPresent ctxAvailable chatO ttsO q hq
    tauto
  | ofUpload s st filePresent readResult chatO ttsO q hr hq ih =>
    have := stateTrace_mem_upload s st filePresent readResult chatO ttsO q hq
    tauto

/-- The loading state is reachable: from the initial idle state, a capture
with a ready camera and a failing inference endpoint assigns loading. -/
theorem reachable_loading : ReachableProc .loading :=
  ReachableProc.ofCapture sampleSettings initialAppState id
    (some { videoWidth := 640, videoHeight := 480, frameData := "frame" })
    true true (.netFail "connection refused") (.netFail "down") .loading
    ReachableProc.init
    (by simp [handleCapture, captureImage, processCapturedImage, sendToAI])

/-! Claim theorems -/

/-- C1: when the inference endpoint responds with a non-2xx status, the
pipeline ends in the error processing state, the error message shown to
the user is the server-error prefix followed by the response body text
(so the body text is included in it), and no speech request is issued for
that run. -/
theorem C1_inference_http_error_is_hard (s : CaptureSettings) (st : AppState)
    (imageBase64 : String) (status : Nat) (bodyText : String)
    (choices : Except String (List String)) (ttsO : TtsOutcome)
    (h : responseOk status = false) :
    (processCapturedImage s st imageBase64
        (.got { status := status, bodyText := bodyText, choices := choices })
        ttsO).finalState.processingState = .error ∧
    (processCapturedImage s st imageBase64
        (.got { status := status, bodyText := bodyText, choices := choices })
        ttsO).finalState.error = serverErrorPrefix status ++ bodyText ∧
    (processCapturedImage s st imageBase64
        (.got { status := status, bodyText := bodyText, choices := choices })
        ttsO).ttsRequests = [] := by
  refine ⟨?_, ?_, ?_⟩ <;> simp [processCapturedImage, sendToAI, h]

/-- C1 witness: a concrete run against an endpoint answering HTTP 500. -/
theorem C1_witness :
    responseOk 500 = false ∧
    ((processCapturedImage sampleSettings initialAppState "img"
        (.got { status := 500, bodyText := "boom", choices := Except.error "" })
        (.netFail "down")).finalState.processingState = .error ∧
      (processCapturedImage sampleSettings initialAppState "img"
        (.got { status := 500, bodyText := "boom", choices := Except.error "" })
        (.netFail "down")).finalState.error = serverErrorPrefix 500 ++ "boom" ∧
      (processCapturedImage sampleSettings initialAppState "img"
        (.got { status := 500, bodyText := "boom", choices := Except.error "" })
        (.netFail "down")).ttsRequests = []) :=
  ⟨by decide,
    C1_inference_http_error_is_hard sampleSettings initialAppState "img" 500 "boom"
      (Except.error "") (.netFail "down") (by decide)⟩

/-- C2 counterexample: in the reachable in-flight state loading, the
upload control — which starts a new capture/infer/speak pipeline run —
carries no disabled attribute, so a pipeline-starting control is enabled
and a second pipeline can be started while one is in flight; the claimed
at-most-one-pipeline exclusion does not hold for the code. -/
theorem C2_counterexample_upload_enabled_while_loading :
    ReachableProc .loading ∧ uploadButtonDisabled .loading = false ∧
      pipelineStartEnabled .loading = true :=
  ⟨reachable_loading, rfl, rfl⟩

/-- C2 (amended): in every reachable state the capture control is
disabled exactly while the processing state is loading or
generating-speech, so no new camera capture can start during a run; the
upload control, however, is never disabled, so an upload-initiated
pipeline can overlap an in-flight run. -/
theorem C2_capture_control_disabled_iff (p : ProcessingState)
    (h : ReachableProc p) :
    (captureButtonDisabled p = true ↔ (p = .loading ∨ p = .generatingSpeech)) ∧
    uploadButtonDisabled p = false := by
  have hc := reachableProc_cases p h
  rcases hc with h1 | h1 | h1 | h1 | h1 <;> subst h1 <;> exact ⟨by decide, rfl⟩

/-- C2 witness: the amended statement at the reachable state loading. -/
theorem C2_witness :
    (captureButtonDisabled .loading = true ↔
      (ProcessingState.loading = .loading ∨
        ProcessingState.loading = .generatingSpeech)) ∧
    uploadButtonDisabled .loading = false :=
  C2_capture_control_disabled_iff .loading reachable_loading

/-- C3: when inference succeeds but the speech request fails in any of
the spec-listed ways (non-2xx response, malformed response body, or a
response with success false — plus a network failure), the pipeline still
ends in the success state with the inference text present, no audio
payload set, and an empty user-facing error. -/
theorem C3_speech_failure_is_soft (s : CaptureSettings) (st : AppState)
    (imageBase64 : String) (status : Nat) (bodyText : String)
    (c : String) (rest : List String) (ttsO : TtsOutcome)
    (hE : s.enableTTS = true) (hok : responseOk status = true)
    (hf : SpeechFailure ttsO) :
    (processCapturedImage s st imageBase64
        (.got { status := status, bodyText := bodyText, choices := .ok (c :: rest) })
        ttsO).finalState.processingState = .success ∧
    (processCapturedImage s st imageBase64
        (.got { status := status, bodyText := bodyText, choices := .ok (c :: rest) })
        ttsO).finalState.originalResult = c ∧
    (processCapturedImage s st imageBase64
        (.got { status := status, bodyText := bodyText, choices := .ok (c :: rest) })
        ttsO).finalState.enhancedResult = c ∧
    (processCapturedImage s st imageBase64
        (.got { status := status, bodyText := bodyText, choices := .ok (c :: rest) })
        ttsO).finalState.audioBase64 = "" ∧
    (processCapturedImage s st imageBase64
        (.got { status := status, bodyText := bodyText, choices := .ok (c :: rest) })
        ttsO).finalState.error = "" := by
  have hnone := generateSpeech_failure_none s c ttsO hf
  refine ⟨?_, ?_, ?_, ?_, ?_⟩ <;>
    simp [processCapturedImage, sendToAI, hok, hE, hnone, enterLoading]

/-- C3 witness: a speech endpoint answering 200 with success false. -/
theorem C3_witness :
    (processCapturedImage sampleSettings initialAppState "img"
        (.got { status := 200, bodyText := "", choices := .ok ["a cat"] })
        (.got { status := 200, bodyText := ""
                body := .ok { success := false, audio_base64 := "", error := "x" } })).finalState.processingState = .success ∧
    (processCapturedImage sampleSettings initialAppState "img"
        (.got { status := 200, bodyText := "", choices := .ok ["a cat"] })
        (.got { status := 200, bodyText := ""
                body := .ok { success := false, audio_base64 := "", error := "x" } })).finalState.originalResult = "a cat" ∧
    (processCapturedImage sampleSettings initialAppState "img"
        (.got { status := 200, bodyText := "", choices := .ok ["a cat"] })
        (.got { status := 200, bodyText := ""
                body := .ok { success := false, audio_base64 := "", error := "x" } })).finalState.enhancedResult = "a cat" ∧
    (processCapturedImage sampleSettings initialAppState "img"
        (.got { status := 200, bodyText := "", choices := .ok ["a cat"] })
        (.got { status := 200, bodyText := ""
                body := .ok { success := false, audio_base64 := "", error := "x" } })).finalState.audioBase64 = "" ∧
    (processCapturedImage sampleSettings initialAppState "img"
        (.got { status := 200, bodyText := "", choices := .ok ["a cat"] })
        (.got { status := 200, bodyText := ""
                body := .ok { success := false, audio_base64 := "", error := "x" } })).finalState.error = "" :=
  C3_speech_failure_is_soft sampleSettings initialAppState "img" 200 "" "a cat" []
    (.got { status := 200, bodyText := ""
            body := .ok { success := false, audio_base64 := "", error := "x" } })
    (by decide) (by decide)
    (Or.inr (Or.inr ⟨{ success := false, audio_base64 := "", error := "x" }, rfl, rfl⟩))

/-- C4: when the speech feature flag is off or the inference text is
empty, no request is made to the /tts path; and with the flag off the
pipeline moves from loading straight to success, never entering
generating-speech. -/
theorem C4_speech_skipped (s : CaptureSettings) (st : AppState)
    (imageBase64 : String) (status : Nat) (bodyText : String)
    (c : String) (rest : List String) (ttsO : TtsOutcome)
    (hok : responseOk status = true)
    (hskip : s.enableTTS = false ∨ c.trim = "") :
    (processCapturedImage s st imageBase64
        (.got { status := status, bodyText := bodyText, choices := .ok (c :: rest) })
        ttsO).ttsRequests = [] ∧
    (s.enableTTS = false →
      (processCapturedImage s st imageBase64
        (.got { status := status, bodyText := bodyText, choices := .ok (c :: rest) })
        ttsO).stateTrace = [.loading, .success]) := by
  constructor
  · rcases hskip with hE | ht
    · simp [processCapturedImage, sendToAI, hok, hE]
    · by_cases hE : s.enableTTS
      · simp [processCapturedImage, sendToAI, generateSpeech, hok, hE, ht]
      · simp [processCapturedImage, sendToAI, hok, hE]
  · intro hE
    simp [processCapturedImage, sendToAI, hok, hE]

/-- C4 witness: a concrete run with the TTS flag off. -/
theorem C4_witness :
    (processCapturedImage sampleSettingsNoTts initialAppState "img"
        (.got { status := 200, bodyText := "", choices := .ok ["a cat"] })
        (.netFail "down")).ttsRequests = [] ∧
    (sampleSettingsNoTts.enableTTS = false →
      (processCapturedImage sampleSettingsNoTts initialAppState "img"
        (.got { status := 200, bodyText := "", choices := .ok ["a cat"] })
        (.netFail "down")).stateTrace = [.loading, .success]) :=
  C4_speech_skipped sampleSettingsNoTts initialAppState "img" 200 "" "a cat" []
    (.netFail "down") (by decide) (Or.inl (by decide))

/-- C5: with no ready video source (no video element or a zero natural
width), capture returns none, the capture error message is surfaced, and
the run aborts issuing no request, assigning no processing state (so it
never enters loading) and leaving the processing state unchanged. -/
theorem C5_capture_none_aborts (s : CaptureSettings) (st : AppState)
    (encode : String → String) (video : Option VideoSource)
    (canvasPresent ctxAvailable : Bool)
    (chatO : ChatOutcome) (ttsO : TtsOutcome)
    (h : video = none ∨ ∃ v, video = some v ∧ v.videoWidth = 0) :
    captureImage encode video canvasPresent ctxAvailable = none ∧
    (handleCapture s st encode video canvasPresent ctxAvailable chatO
        ttsO).finalState.error = captureFailMsg ∧
    (handleCapture s st encode video canvasPresent ctxAvailable chatO
        ttsO).finalState.processingState = st.processingState ∧
    (handleCapture s st encode video canvasPresent ctxAvailable chatO
        ttsO).stateTrace = [] ∧
    (handleCapture s st encode video canvasPresent ctxAvailable chatO
        ttsO).chatRequests = [] ∧
    (handleCapture s st encode video canvasPresent ctxAvailable chatO
        ttsO).ttsRequests = [] := by
  have hc : captureImage encode video canvasPresent ctxAvailable = none := by
    rcases h with h | ⟨v, hv, hw⟩
    · simp [captureImage, h]
    · subst hv
      cases canvasPresent <;> simp [captureImage, hw]
  refine ⟨hc, ?_, ?_, ?_, ?_, ?_⟩ <;> simp [handleCapture, hc]

/-- C5 witness: capture with no video element at all. -/
theorem C5_witness :
    captureImage id none true true = none ∧
    (handleCapture sampleSettings initialAppState id none true true
        (.netFail "down") (.netFail "down")).finalState.error = captureFailMsg ∧
    (handleCapture sampleSettings initialAppState id none true true
        (.netFail "down") (.netFail "down")).finalState.processingState =
      initialAppState.processingState ∧
    (handleCapture sampleSettings initialAppState id none true true
        (.netFail "down") (.netFail "down")).stateTrace = [] ∧
    (handleCapture sampleSettings initialAppState id none true true
        (.netFail "down") (.netFail "down")).chatRequests = [] ∧
    (handleCapture sampleSettings initialAppState id none true true
        (.netFail "down") (.netFail "down")).ttsRequests = [] :=
  C5_capture_none_aborts sampleSettings initialAppState id none true true
    (.netFail "down") (.netFail "down") (Or.inl rfl)

/-- C6: on entry to the loading state — in the capture path and,
identically, in the upload path — the prior inference results, the error
message and the audio payload are cleared and the newly acquired image
becomes the current preview; every pipeline run indeed starts its state
trace at loading. -/
theorem C6_loading_entry_clears (s : CaptureSettings) (st : AppState)
    (imageBase64 : String) (chatO : ChatOutcome) (ttsO : TtsOutcome) :
    (enterLoading st imageBase64).originalResult = "" ∧
    (enterLoading st imageBase64).enhancedResult = "" ∧
    (enterLoading st imageBase64).error = "" ∧
    (enterLoading st imageBase64).audioBase64 = "" ∧
    (enterLoading st imageBase64).previewImage = some imageBase64 ∧
    (enterLoading st imageBase64).processingState = .loading ∧
    enterLoadingUpload st imageBase64 = enterLoading st imageBase64 ∧
    (processCapturedImage s st imageBase64 chatO ttsO).stateTrace.head? =
      some .loading ∧
    (processUploadedImage s st imageBase64 chatO ttsO).stateTrace.head? =
      some .loading := by
  have hhead : (processCapturedImage s st imageBase64 chatO
      ttsO).stateTrace.head? = some .loading := by
    unfold processCapturedImage
    cases h : (sendToAI s imageBase64 chatO).2 with
    | error msg => simp [h]
    | ok aiResult => by_cases hE : s.enableTTS <;> simp [h, hE]
  refine ⟨rfl, rfl, rfl, rfl, rfl, rfl, rfl, hhead, ?_⟩
  rw [processUploaded_eq_processCaptured]
  exact hhead

/-- C7: sendToAI issues exactly one POST, to
{serverUrl}/v1/chat/completions, whose body has max_tokens 128,
temperature 0 and a single user message of exactly two content parts —
the image data URL as an image_url part followed by the instruction as a
text part — and on a 2xx response it returns the first choice message
content. -/
theorem C7_infer_request_and_result (s : CaptureSettings) (imageBase64 : String)
    (status : Nat) (bodyText : String) (c : String) (rest : List String)
    (hok : responseOk status = true) :
    (∀ o : ChatOutcome, (sendToAI s imageBase64 o).1 =
      [{ url := s.serverUrl ++ "/v1/chat/completions"
         max_tokens := 128
         temperature := 0
         messages := [{ role := "user"
                        content := [ContentPart.image_url imageBase64,
                                    ContentPart.text s.instruction] }] }]) ∧
    (sendToAI s imageBase64
        (.got { status := status, bodyText := bodyText, choices := .ok (c :: rest) })).2 =
      .ok c := by
  refine ⟨fun o => rfl, ?_⟩
  simp [sendToAI, hok]

/-- C7 witness: the request and result at a concrete 200 response. -/
theorem C7_witness :
    (∀ o : ChatOutcome, (sendToAI sampleSettings "img" o).1 =
      [{ url := sampleSettings.serverUrl ++ "/v1/chat/completions"
         max_tokens := 128
         temperature := 0
         messages := [{ role := "user"
                        content := [ContentPart.image_url "img",
                                    ContentPart.text sampleSettings.instruction] }] }]) ∧
    (sendToAI sampleSettings "img"
        (.got { status := 200, bodyText := "", choices := .ok ["a cat"] })).2 =
      .ok "a cat" :=
  C7_infer_request_and_result sampleSettings "img" 200 "" "a cat" [] (by decide)

/-- C8: stopping the camera while a stream is held calls stop on exactly
the tracks of that stream, drops the stream and clears the active flag;
a second stop call finds no stream, performs no track operation and
leaves the state unchanged (release is idempotent and total). -/
theorem C8_stopCamera_releases_and_is_idempotent (c : CameraState)
    (ts : List Nat) (h : c.streamTracks = some ts) :
    (stopCamera c).2 = ts ∧
    (stopCamera c).1.streamTracks = none ∧
    (stopCamera c).1.isCameraActive = false ∧
    (stopCamera (stopCamera c).1).2 = [] ∧
    (stopCamera (stopCamera c).1).1 = (stopCamera c).1 := by
  simp [stopCamera, h]

/-- C8 witness: releasing a stream of two tracks, twice. -/
theorem C8_witness :
    (stopCamera { streamTracks := some [1, 2], isCameraActive := true }).2 = [1, 2] ∧
    (stopCamera { streamTracks := some [1, 2], isCameraActive := true }).1.streamTracks = none ∧
    (stopCamera { streamTracks := some [1, 2], isCameraActive := true }).1.isCameraActive = false ∧
    (stopCamera (stopCamera { streamTracks := some [1, 2], isCameraActive := true }).1).2 = [] ∧
    (stopCamera (stopCamera { streamTracks := some [1, 2], isCameraActive := true }).1).1 =
      (stopCamera { streamTracks := some [1, 2], isCameraActive := true }).1 :=
  C8_stopCamera_releases_and_is_idempotent
    { streamTracks := some [1, 2], isCameraActive := true } [1, 2] rfl

/-- C9: given the same image data URL and the same settings, the
post-acquisition processing of handleCapture and of handleUploadImage are
the same function: the final component state (result text, audio payload,
error message, preview image, processing state), the sequence of state
assignments and the issued requests coincide. -/
theorem C9_capture_upload_pipelines_equivalent (s : CaptureSettings)
    (st : AppState) (imageBase64 : String) (chatO : ChatOutcome)
    (ttsO : TtsOutcome) :
    processCapturedImage s st imageBase64 chatO ttsO =
      processUploadedImage s st imageBase64 chatO ttsO :=
  (processUploaded_eq_processCaptured s st imageBase64 chatO ttsO).symm

/-- C10: the processing state enhancing, though declared and rendered by
the UI, is never assigned: every reachable processing state is one of
idle, loading, generating-speech, success or error. -/
theorem C10_enhancing_unreachable (p : ProcessingState) (h : ReachableProc p) :
    p ≠ .enhancing ∧
    (p = .idle ∨ p = .loading ∨ p = .generatingSpeech ∨ p = .success ∨
      p = .error) := by
  have hc := reachableProc_cases p h
  refine ⟨?_, hc⟩
  rcases hc with h1 | h1 | h1 | h1 | h1 <;> subst h1 <;> decide

/-- C10 witness: the initial state idle. -/
theorem C10_witness :
    ProcessingState.idle ≠ .enhancing ∧
    (ProcessingState.idle = .idle ∨ ProcessingState.idle = .loading ∨
      ProcessingState.idle = .generatingSpeech ∨
      ProcessingState.idle = .success ∨ ProcessingState.idle = .error) :=
  C10_enhancing_unreachable .idle ReachableProc.init

end VisionAid
